import Mathlib

/-!
# HSM orchestration layer: a shallow embedding

This file embeds the HSM orchestration core of the repository
(`src/hsm/mod.rs`, `src/hsm/aws_cloudhsm.rs`) into Lean and proves the
frozen claims about it.

Modelling conventions:
* Rust machine integers (`u32`, `u64`) are modelled as `Nat`; none of the
  embedded code paths can overflow a 64-bit counter on the inputs the claims
  quantify over, so no explicit wrap-around is modelled.
* `f64` fields (`average_latency_ms`, `cpu_usage_percent`, throughput) are
  modelled over `ℚ`; the rounding of IEEE doubles is not modelled.
* Asynchronous effects (clock reads, UUID generation, the outcome of the
  `tokio::time::timeout` race, the success of an audit write) are supplied by
  an explicit `Env` value: one `Env` describes the ambient nondeterminism of
  one call.  A single call may read the clock several times; the embedding
  collapses those reads to `Env.now` (the claims never depend on the
  difference between successive clock reads inside one call).
* `tokio::sync::RwLock`-guarded interior mutability becomes explicit state
  passing: each operation maps a state to a result paired with the new state.
* Fallible Rust code returning `anyhow::Result` becomes `Except HsmError`.
  The `anyhow!` error strings are mapped to the spec's error taxonomy (§7).
-/

/-- Supported Post-Quantum Cryptography algorithms (`PqcAlgorithm`,
`src/hsm/mod.rs`). -/
inductive PqcAlgorithm where
  | Kyber1024
  | Dilithium3
  | SphincsPlusSha256128s
  | HybridRsaKyber
  | HybridEcdsaDilithium
deriving DecidableEq, Repr

/-- HSM provider types (`HsmProviderType`, `src/hsm/mod.rs`). -/
inductive HsmProviderType where
  | AwsCloudHsm
  | AzureKeyVault
  | Pkcs11Generic
  | Pkcs11Thales
  | Pkcs11Utimaco
  | Pkcs11SafeNet
  | SoftwareOnly
deriving DecidableEq, Repr

/-- Error taxonomy of the orchestration layer.  The Rust code returns
`anyhow::Error` values built from strings; this inductive maps each distinct
error site of the embedded code to the spec's taxonomy (§7).
`keyGenerationFailed e` is the Manager's wrap
`anyhow!("Key generation failed: {}", e)` of a provider error `e`. -/
inductive HsmError where
  | providerUnavailable (p : HsmProviderType)
  | keyNotFound
  | resourceExhausted
  | operationTimeout
  | unsupportedAlgorithm
  | auditFailure
  | keyGenerationFailed (e : HsmError)
deriving DecidableEq, Repr

deriving instance DecidableEq for Except

/-- `true` exactly on the `Except.ok` constructor. -/
def exceptOk {ε α : Type} : Except ε α → Bool
  | .ok _ => true
  | .error _ => false

/-- Key usage policy (`KeyUsagePolicy`, `src/hsm/mod.rs`). -/
structure KeyUsagePolicy where
  can_encrypt : Bool
  can_decrypt : Bool
  can_sign : Bool
  can_verify : Bool
  can_derive : Bool
  can_export : Bool
  max_uses : Option Nat
  allowed_users : List String
  allowed_applications : List String
deriving DecidableEq, Repr

/-- `impl Default for KeyUsagePolicy` (`src/hsm/mod.rs`). -/
def KeyUsagePolicy.mkDefault : KeyUsagePolicy where
  can_encrypt := true
  can_decrypt := true
  can_sign := true
  can_verify := true
  can_derive := false
  can_export := false
  max_uses := none
  allowed_users := ["*"]
  allowed_applications := ["*"]

/-- HSM key handle (`HsmKeyHandle`, `src/hsm/mod.rs`).  `SystemTime` values
are milliseconds since the epoch. -/
structure HsmKeyHandle where
  key_id : String
  algorithm : PqcAlgorithm
  provider : HsmProviderType
  created_at : Nat
  expires_at : Option Nat
  key_size_bits : Nat
  usage_policy : KeyUsagePolicy
  hardware_backed : Bool
  fips_compliant : Bool
deriving DecidableEq, Repr

/-- Caller/audit context (`OperationContext`, `src/hsm/mod.rs`). -/
structure OperationContext where
  user_id : String
  application_id : String
  session_id : String
  timestamp : Nat
  audit_required : Bool
deriving DecidableEq, Repr

/-- `CryptoOperationType` (`src/hsm/mod.rs`). -/
inductive CryptoOperationType where
  | Encrypt
  | Decrypt
  | Sign
  | Verify
  | KeyDerive
  | KeyWrap
  | KeyUnwrap
deriving DecidableEq, Repr

/-- `AlgorithmParams` (`src/hsm/mod.rs`); byte vectors become `List Nat`. -/
structure AlgorithmParams where
  mode : String
  padding : Option String
  salt : Option (List Nat)
  iv : Option (List Nat)
deriving DecidableEq, Repr

/-- Cryptographic operation request (`CryptoOperation`, `src/hsm/mod.rs`). -/
structure CryptoOperation where
  operation_type : CryptoOperationType
  key_id : String
  data : List Nat
  algorithm_params : Option AlgorithmParams
  context : OperationContext
deriving DecidableEq, Repr

/-- Per-operation metrics (`HsmOperationMetrics`, `src/hsm/mod.rs`). -/
structure HsmOperationMetrics where
  latency_ms : Nat
  throughput_ops_per_sec : ℚ
  memory_usage_kb : Nat
  cpu_usage_percent : ℚ
  network_latency_ms : Option Nat
deriving DecidableEq, Repr

/-- Result of a cryptographic operation (`CryptoResult`, `src/hsm/mod.rs`). -/
structure CryptoResult where
  data : List Nat
  operation_id : String
  duration_ms : Nat
  success : Bool
  error_code : Option String
  hsm_metrics : HsmOperationMetrics
deriving DecidableEq, Repr

/-- Per-provider metrics (`HsmMetrics`, `src/hsm/mod.rs`). -/
structure HsmMetrics where
  provider : HsmProviderType
  uptime_seconds : Nat
  total_operations : Nat
  successful_operations : Nat
  failed_operations : Nat
  average_latency_ms : ℚ
  peak_latency_ms : Nat
  current_connections : Nat
  max_connections : Nat
  memory_usage_mb : Nat
  cpu_usage_percent : ℚ
deriving DecidableEq, Repr

/-- `impl HsmMetrics { fn new }` (`src/hsm/aws_cloudhsm.rs`): the AWS
provider's initial internal metrics. -/
def HsmMetrics.new (p : HsmProviderType) : HsmMetrics where
  provider := p
  uptime_seconds := 0
  total_operations := 0
  successful_operations := 0
  failed_operations := 0
  average_latency_ms := 0
  peak_latency_ms := 0
  current_connections := 0
  max_connections := 10
  memory_usage_mb := 128
  cpu_usage_percent := 0

/-- The enabled-backend flags the Manager consults.  The `HsmConfig` module
itself is not under `src/`; these three booleans are exactly the fields
`src/hsm/mod.rs` reads (`aws_enabled`, `azure_enabled`, `pkcs11_enabled`). -/
structure HsmConfigFlags where
  aws_enabled : Bool
  azure_enabled : Bool
  pkcs11_enabled : Bool
deriving DecidableEq, Repr

/-- Whether a backend belongs to the configuration's enabled set.  Only the
three backends the Manager can construct (`HsmManager::new`) are enableable. -/
def HsmConfigFlags.enables (cfg : HsmConfigFlags) : HsmProviderType → Bool
  | .AwsCloudHsm => cfg.aws_enabled
  | .AzureKeyVault => cfg.azure_enabled
  | .Pkcs11Generic => cfg.pkcs11_enabled
  | _ => false

/-- `HsmManager::select_optimal_provider` (`src/hsm/mod.rs`, lines 409-452):
a fixed per-algorithm ranking over the configuration flags. -/
def select_optimal_provider (cfg : HsmConfigFlags) (alg : PqcAlgorithm) :
    HsmProviderType :=
  match alg with
  | .Kyber1024 =>
      if cfg.aws_enabled then .AwsCloudHsm
      else if cfg.pkcs11_enabled then .Pkcs11Generic
      else .AzureKeyVault
  | .Dilithium3 =>
      if cfg.pkcs11_enabled then .Pkcs11Generic
      else if cfg.aws_enabled then .AwsCloudHsm
      else .AzureKeyVault
  | .SphincsPlusSha256128s =>
      if cfg.azure_enabled then .AzureKeyVault
      else if cfg.pkcs11_enabled then .Pkcs11Generic
      else .AwsCloudHsm
  | _ =>
      if cfg.aws_enabled then .AwsCloudHsm
      else if cfg.azure_enabled then .AzureKeyVault
      else .Pkcs11Generic

/-- Provider resolution in `HsmManager::generate_pqc_key`
(`src/hsm/mod.rs`, lines 286-288):
`preferred_provider.unwrap_or_else(|| self.select_optimal_provider(&algorithm))`. -/
def resolveProviderType (cfg : HsmConfigFlags) (alg : PqcAlgorithm)
    (preferred : Option HsmProviderType) : HsmProviderType :=
  preferred.getD (select_optimal_provider cfg alg)

/-- Ambient nondeterminism of a single orchestration-layer call: clock reads,
freshly drawn UUIDs, the wall-clock duration of the provider-internal
hardware operation (which decides the `tokio::time::timeout` race), the
elapsed latency the Manager feeds to `update_metrics`, and whether the audit
write succeeds. -/
structure Env where
  now : Nat
  currentUser : String
  sessionUuid : String
  connUuid : String
  opUuid : String
  hwDurationMs : Nat
  elapsedMs : Nat
  auditOk : Bool
deriving DecidableEq, Repr

/-- A pooled CloudHSM session (`CloudHsmConnection`,
`src/hsm/aws_cloudhsm.rs`). -/
structure CloudHsmConnection where
  id : String
  session_handle : Nat
  created_at : Nat
  last_used : Nat
  is_busy : Bool
deriving DecidableEq, Repr

/-- `CloudHsmConnectionPool` (`src/hsm/aws_cloudhsm.rs`): `connections` is the
idle list (a Rust `Vec`, modelled as a list in the same element order, so
`Vec::push` appends at the end and `Vec::pop` removes from the end);
`current_connections` is the number of connections ever created. -/
structure CloudHsmConnectionPool where
  connections : List CloudHsmConnection
  max_connections : Nat
  current_connections : Nat
deriving DecidableEq, Repr

/-- `CloudHsmConnectionPool::new` (`src/hsm/aws_cloudhsm.rs`). -/
def CloudHsmConnectionPool.new (maxConns : Nat) : CloudHsmConnectionPool where
  connections := []
  max_connections := maxConns
  current_connections := 0

/-- `Vec::pop`: removes and returns the last element, if any. -/
def vecPop {α : Type} (l : List α) : Option (α × List α) :=
  match l.reverse with
  | [] => none
  | x :: rest => some (x, rest.reverse)

/-- `CloudHsmConnectionPool::get_connection` (`src/hsm/aws_cloudhsm.rs`,
lines 444-470): pop an idle connection if any; otherwise create a fresh one
when `current_connections < max_connections`; otherwise fail
("Connection pool exhausted" — spec taxonomy `ResourceExhausted`). -/
def CloudHsmConnectionPool.get_connection (env : Env)
    (pool : CloudHsmConnectionPool) :
    Except HsmError CloudHsmConnection × CloudHsmConnectionPool :=
  match vecPop pool.connections with
  | some (conn, rest) =>
      (.ok { conn with last_used := env.now, is_busy := true },
       { pool with connections := rest })
  | none =>
      if pool.current_connections < pool.max_connections then
        (.ok { id := env.connUuid
               session_handle := env.now / 1000
               created_at := env.now
               last_used := env.now
               is_busy := true },
         { pool with current_connections := pool.current_connections + 1 })
      else
        (.error .resourceExhausted, pool)

/-- `CloudHsmConnectionPool::return_connection` (`src/hsm/aws_cloudhsm.rs`,
lines 472-477): clear the busy flag and push onto the idle list (always
`Ok(())`, so the embedding returns the new pool directly). -/
def CloudHsmConnectionPool.return_connection (conn : CloudHsmConnection)
    (pool : CloudHsmConnectionPool) : CloudHsmConnectionPool :=
  { pool with connections := pool.connections ++ [{ conn with is_busy := false }] }

/-- State of an `AwsCloudHsmProvider` (`src/hsm/aws_cloudhsm.rs`): the
configured timeout, the connection pool and the provider-internal metrics.
`hardwareKeys` — Modelled from the spec: the vendor-side CloudHSM key store
is an external collaborator behind the provider seam (§6) and has no
representation in `src/`; it is modelled as the list of key ids successfully
generated on this backend, so that "the provider holds a key" is statable. -/
structure AwsCloudHsmState where
  timeout_seconds : Nat
  pool : CloudHsmConnectionPool
  metrics : HsmMetrics
  hardwareKeys : List String
deriving DecidableEq, Repr

/-- `AwsCloudHsmProvider::generate_kyber_key` (`src/hsm/aws_cloudhsm.rs`):
the handle built for a Kyber-1024 generation. -/
def awsKyberHandle (env : Env) (key_id : String) : HsmKeyHandle where
  key_id := key_id
  algorithm := .Kyber1024
  provider := .AwsCloudHsm
  created_at := env.now
  expires_at := some (env.now + 365 * 24 * 3600 * 1000)
  key_size_bits := 1024
  usage_policy := KeyUsagePolicy.mkDefault
  hardware_backed := true
  fips_compliant := true

/-- `AwsCloudHsmProvider::generate_dilithium_key` (`src/hsm/aws_cloudhsm.rs`). -/
def awsDilithiumHandle (env : Env) (key_id : String) : HsmKeyHandle where
  key_id := key_id
  algorithm := .Dilithium3
  provider := .AwsCloudHsm
  created_at := env.now
  expires_at := some (env.now + 365 * 24 * 3600 * 1000)
  key_size_bits := 2592
  usage_policy := { KeyUsagePolicy.mkDefault with
                      can_encrypt := false, can_decrypt := false,
                      can_sign := true, can_verify := true }
  hardware_backed := true
  fips_compliant := true

/-- `AwsCloudHsmProvider::generate_sphincs_key` (`src/hsm/aws_cloudhsm.rs`). -/
def awsSphincsHandle (env : Env) (key_id : String) : HsmKeyHandle where
  key_id := key_id
  algorithm := .SphincsPlusSha256128s
  provider := .AwsCloudHsm
  created_at := env.now
  expires_at := some (env.now + 365 * 24 * 3600 * 1000)
  key_size_bits := 128
  usage_policy := { KeyUsagePolicy.mkDefault with
                      can_encrypt := false, can_decrypt := false,
                      can_sign := true, can_verify := true }
  hardware_backed := true
  fips_compliant := true

/-- `AwsCloudHsmProvider::generate_hardware_key` (`src/hsm/aws_cloudhsm.rs`,
lines 190-210): borrow a pool connection, dispatch on the algorithm
(an unsupported algorithm returns early, without returning the connection),
return the connection, and yield the handle. -/
def AwsCloudHsmState.generate_hardware_key (env : Env) (alg : PqcAlgorithm)
    (key_id : String) (st : AwsCloudHsmState) :
    Except HsmError HsmKeyHandle × AwsCloudHsmState :=
  match st.pool.get_connection env with
  | (.error e, pool') => (.error e, { st with pool := pool' })
  | (.ok conn, pool') =>
      let handle? : Except HsmError HsmKeyHandle :=
        match alg with
        | .Kyber1024 => .ok (awsKyberHandle env key_id)
        | .Dilithium3 => .ok (awsDilithiumHandle env key_id)
        | .SphincsPlusSha256128s => .ok (awsSphincsHandle env key_id)
        | _ => .error .unsupportedAlgorithm
      match handle? with
      | .error e => (.error e, { st with pool := pool' })
      | .ok handle =>
          (.ok handle,
           { st with pool := pool'.return_connection conn
                     hardwareKeys := st.hardwareKeys ++ [key_id] })

/-- `impl HsmProvider for AwsCloudHsmProvider :: generate_pqc_key`
(`src/hsm/aws_cloudhsm.rs`, lines 345-371): race the hardware generation
against a `timeout_seconds` timer.  The race outcome is determined by the
environment's `hwDurationMs`: the timer fires exactly when the inner
operation takes strictly longer than the configured timeout.  On timeout the
caller-visible future is abandoned, so the inner state effects are dropped
(§5: the underlying call is not cancelled, but its effects are unobservable
to this claim set); the failure counter is incremented.  On completion the
success/failure counter is incremented according to the inner result. -/
def AwsCloudHsmState.generate_pqc_key (env : Env) (alg : PqcAlgorithm)
    (key_id : String) (st : AwsCloudHsmState) :
    Except HsmError HsmKeyHandle × AwsCloudHsmState :=
  if st.timeout_seconds * 1000 < env.hwDurationMs then
    (.error .operationTimeout,
     { st with metrics :=
         { st.metrics with
             failed_operations := st.metrics.failed_operations + 1 } })
  else
    match st.generate_hardware_key env alg key_id with
    | (.ok handle, st') =>
        (.ok handle,
         { st' with metrics :=
             { st'.metrics with
                 successful_operations := st'.metrics.successful_operations + 1 } })
    | (.error e, st') =>
        (.error e,
         { st' with metrics :=
             { st'.metrics with
                 failed_operations := st'.metrics.failed_operations + 1 } })

/-- `AwsCloudHsmProvider::retrieve_hardware_key` (`src/hsm/aws_cloudhsm.rs`,
lines 280-303), the body of the provider's `get_key`: borrow and return a
pool connection, then return a mock handle for the requested id — the
backend's actual key store is never consulted. -/
def AwsCloudHsmState.retrieve_hardware_key (env : Env) (key_id : String)
    (st : AwsCloudHsmState) :
    Except HsmError HsmKeyHandle × AwsCloudHsmState :=
  match st.pool.get_connection env with
  | (.error e, pool') => (.error e, { st with pool := pool' })
  | (.ok conn, pool') =>
      (.ok { key_id := key_id
             algorithm := .Kyber1024
             provider := .AwsCloudHsm
             created_at := env.now - 3600 * 1000
             expires_at := some (env.now + 364 * 24 * 3600 * 1000)
             key_size_bits := 1024
             usage_policy := KeyUsagePolicy.mkDefault
             hardware_backed := true
             fips_compliant := true },
       { st with pool := pool'.return_connection conn })

/-- `AwsCloudHsmProvider::perform_crypto_operation`
(`src/hsm/aws_cloudhsm.rs`, lines 306-339), the body of the provider's
`crypto_operation`: borrow and return a pool connection, then report a
successful mock result. -/
def AwsCloudHsmState.perform_crypto_operation (env : Env)
    (_op : CryptoOperation) (st : AwsCloudHsmState) :
    Except HsmError CryptoResult × AwsCloudHsmState :=
  match st.pool.get_connection env with
  | (.error e, pool') => (.error e, { st with pool := pool' })
  | (.ok conn, pool') =>
      (.ok { data := List.replicate 32 0
             operation_id := "aws-op-" ++ env.opUuid
             duration_ms := env.elapsedMs
             success := true
             error_code := none
             hsm_metrics :=
               { latency_ms := env.elapsedMs
                 throughput_ops_per_sec := 1000 / (env.elapsedMs : ℚ)
                 memory_usage_kb := 1024
                 cpu_usage_percent := (31 : ℚ) / 2
                 network_latency_ms := some 5 } },
       { st with pool := pool'.return_connection conn })

/-- The kind of action an audit record describes (spec §3). -/
inductive AuditOperationKind where
  | keyGeneration
  | cryptoOperation
deriving DecidableEq, Repr

/-- An audit-trail entry.  Modelled from the spec: the `audit` module is
declared in `src/hsm/mod.rs` (`pub mod audit`) but `audit.rs` is not under
`src/`; §3 gives the record shape {operation kind, key_id, algorithm,
provider, context, outcome, timestamp}.  `record_crypto_operation` receives
neither an algorithm nor a provider, so those fields are optional. -/
structure AuditRecord where
  operation : AuditOperationKind
  key_id : String
  algorithm : Option PqcAlgorithm
  provider : Option HsmProviderType
  context : OperationContext
  success : Bool
  timestamp : Nat
deriving DecidableEq, Repr

/-- The record a key-generation audit write appends: the call's key id and
algorithm, the resolved provider, the supplied context, and the outcome. -/
def keyGenAuditRecord (env : Env) (key_id : String) (alg : PqcAlgorithm)
    (pt : HsmProviderType) (result : Except HsmError HsmKeyHandle)
    (ctx : OperationContext) : AuditRecord where
  operation := .keyGeneration
  key_id := key_id
  algorithm := some alg
  provider := some pt
  context := ctx
  success := exceptOk result
  timestamp := env.now

/-- The record a crypto-operation audit write appends. -/
def cryptoAuditRecord (env : Env) (op : CryptoOperation)
    (result : Except HsmError CryptoResult) : AuditRecord where
  operation := .cryptoOperation
  key_id := op.key_id
  algorithm := none
  provider := none
  context := op.context
  success := exceptOk result
  timestamp := env.now

/-- `HsmAuditTrail::record_key_generation`.  Modelled from the spec: the
audit module is not under `src/`.  §4.4: appends one immutable record; §7: a
failing audit write is possible (the Manager awaits this call with `?`), so
the environment decides whether the write succeeds.  On success the new
trail, with exactly one appended record, is returned; on failure the trail
is unchanged. -/
def HsmAuditTrail.record_key_generation (env : Env) (key_id : String)
    (alg : PqcAlgorithm) (pt : HsmProviderType)
    (result : Except HsmError HsmKeyHandle) (ctx : OperationContext)
    (trail : List AuditRecord) : Except HsmError (List AuditRecord) :=
  if env.auditOk then
    .ok (trail ++ [keyGenAuditRecord env key_id alg pt result ctx])
  else
    .error .auditFailure

/-- `HsmAuditTrail::record_crypto_operation`.  Modelled from the spec: the
audit module is not under `src/`; §4.4 gives the signature `(op, result)`. -/
def HsmAuditTrail.record_crypto_operation (env : Env) (op : CryptoOperation)
    (result : Except HsmError CryptoResult)
    (trail : List AuditRecord) : Except HsmError (List AuditRecord) :=
  if env.auditOk then
    .ok (trail ++ [cryptoAuditRecord env op result])
  else
    .error .auditFailure

/-- Modelled from the spec: the provider capability interface (§4.1) for
backends whose implementation is not under `src/` (the PKCS#11 provider
module is absent and the Azure trait implementation is truncated in
`src/hsm/azure_keyvault.rs`).  Such a backend is an opaque responder: a
fixed response to each capability call, as the interface alone determines. -/
structure ExtBehavior where
  genResult : PqcAlgorithm → String → Except HsmError HsmKeyHandle
  getKeyResult : String → Except HsmError HsmKeyHandle
  cryptoResult : CryptoOperation → Except HsmError CryptoResult

/-- A registered provider trait object (`Box<dyn HsmProvider>`): either the
fully embedded AWS CloudHSM backend or an opaque interface implementation. -/
inductive ProviderObj where
  | aws (st : AwsCloudHsmState)
  | ext (b : ExtBehavior)

/-- Dynamic dispatch of `HsmProvider::generate_pqc_key`. -/
def ProviderObj.generate (env : Env) (alg : PqcAlgorithm) (key_id : String) :
    ProviderObj → Except HsmError HsmKeyHandle × ProviderObj
  | .aws st =>
      let r := st.generate_pqc_key env alg key_id
      (r.1, .aws r.2)
  | .ext b => (b.genResult alg key_id, .ext b)

/-- Dynamic dispatch of `HsmProvider::get_key`. -/
def ProviderObj.getKey (env : Env) (key_id : String) :
    ProviderObj → Except HsmError HsmKeyHandle × ProviderObj
  | .aws st =>
      let r := st.retrieve_hardware_key env key_id
      (r.1, .aws r.2)
  | .ext b => (b.getKeyResult key_id, .ext b)

/-- Dynamic dispatch of `HsmProvider::crypto_operation`. -/
def ProviderObj.cryptoOp (env : Env) (op : CryptoOperation) :
    ProviderObj → Except HsmError CryptoResult × ProviderObj
  | .aws st =>
      let r := st.perform_crypto_operation env op
      (r.1, .aws r.2)
  | .ext b => (b.cryptoResult op, .ext b)

/-- State of an `HsmManager` (`src/hsm/mod.rs`): the provider registry
(`HashMap<HsmProviderType, Box<dyn HsmProvider>>`, modelled as an
association list in the map's iteration order), the Manager-side metrics map,
and the audit trail.  `providerCalls` is observation-only instrumentation:
the Manager appends one entry at its single `provider.generate_pqc_key` call
site, so that "exactly one attempt per call" is a statable property. -/
structure HsmManagerState where
  providers : List (HsmProviderType × ProviderObj)
  metricsMap : List (HsmProviderType × HsmMetrics)
  auditTrail : List AuditRecord
  providerCalls : List (HsmProviderType × PqcAlgorithm × String)

/-- `HashMap::get` on the registry: first entry with the given key. -/
def findProvider (pt : HsmProviderType) :
    List (HsmProviderType × ProviderObj) → Option ProviderObj
  | [] => none
  | (k, v) :: rest => if k = pt then some v else findProvider pt rest

/-- Write back the interior-mutated provider object (in Rust the trait
object mutates itself behind `Arc<RwLock<...>>`; the map's keys and shape
are untouched). -/
def updateProvider (pt : HsmProviderType) (pObj : ProviderObj) :
    List (HsmProviderType × ProviderObj) → List (HsmProviderType × ProviderObj)
  | [] => []
  | (k, v) :: rest =>
      if k = pt then (k, pObj) :: rest
      else (k, v) :: updateProvider pt pObj rest

/-- `HashMap::get` on the Manager's metrics map. -/
def findMetrics (pt : HsmProviderType) :
    List (HsmProviderType × HsmMetrics) → Option HsmMetrics
  | [] => none
  | (k, v) :: rest => if k = pt then some v else findMetrics pt rest

/-- Write back a mutated metrics entry. -/
def writeMetrics (pt : HsmProviderType) (m : HsmMetrics) :
    List (HsmProviderType × HsmMetrics) → List (HsmProviderType × HsmMetrics)
  | [] => []
  | (k, v) :: rest =>
      if k = pt then (k, m) :: rest
      else (k, v) :: writeMetrics pt m rest

/-- The default entry `HsmManager::update_metrics` inserts
(`or_insert_with`, `src/hsm/mod.rs`, lines 457-469): all counters zero. -/
def HsmMetrics.managerDefault (pt : HsmProviderType) : HsmMetrics where
  provider := pt
  uptime_seconds := 0
  total_operations := 0
  successful_operations := 0
  failed_operations := 0
  average_latency_ms := 0
  peak_latency_ms := 0
  current_connections := 0
  max_connections := 0
  memory_usage_mb := 0
  cpu_usage_percent := 0

/-- The in-place mutation `HsmManager::update_metrics` performs on the
resolved provider's entry (`src/hsm/mod.rs`, lines 471-478): increment the
total count, raise the peak latency, and fold the latency into the rolling
average.  The success/failure counters are not touched here. -/
def HsmMetrics.recordLatency (lat : Nat) (m : HsmMetrics) : HsmMetrics :=
  let total' := m.total_operations + 1
  { m with
      total_operations := total'
      peak_latency_ms := max m.peak_latency_ms lat
      average_latency_ms :=
        (m.average_latency_ms * ((total' - 1 : Nat) : ℚ) + (lat : ℚ)) /
          (total' : ℚ) }

/-- `HsmManager::update_metrics` (`src/hsm/mod.rs`, lines 455-479) on the
Manager's metrics map. -/
def HsmManager.update_metrics (pt : HsmProviderType) (lat : Nat)
    (mm : List (HsmProviderType × HsmMetrics)) :
    List (HsmProviderType × HsmMetrics) :=
  match findMetrics pt mm with
  | some m => writeMetrics pt (m.recordLatency lat) mm
  | none => mm ++ [(pt, (HsmMetrics.managerDefault pt).recordLatency lat)]

/-- The `OperationContext` `HsmManager::generate_pqc_key` constructs for the
audit record (`src/hsm/mod.rs`, lines 299-305): the process-wide current
user, a fixed application id, a fresh session UUID, the call's start time,
and `audit_required = true`.  The caller supplies no context. -/
def managerOperationContext (env : Env) : OperationContext where
  user_id := env.currentUser
  application_id := "pqc-kyber-system"
  session_id := env.sessionUuid
  timestamp := env.now
  audit_required := true

/-- `HsmManager::generate_pqc_key` (`src/hsm/mod.rs`, lines 277-328):
resolve the provider (explicit preference wins, otherwise the per-algorithm
ranking), fail `ProviderUnavailable` if it is not registered, invoke the
provider exactly once, append the audit record (a failing audit write
propagates via `?`), update the Manager-side metrics, and return the
provider's handle or the wrapped provider error. -/
def HsmManager.generate_pqc_key (env : Env) (cfg : HsmConfigFlags)
    (alg : PqcAlgorithm) (key_id : String)
    (preferred : Option HsmProviderType) (st : HsmManagerState) :
    Except HsmError HsmKeyHandle × HsmManagerState :=
  let provider_type := resolveProviderType cfg alg preferred
  match findProvider provider_type st.providers with
  | none => (.error (.providerUnavailable provider_type), st)
  | some pObj =>
      let call := pObj.generate env alg key_id
      let result := call.1
      let st1 : HsmManagerState :=
        { st with
            providers := updateProvider provider_type call.2 st.providers
            providerCalls := st.providerCalls ++ [(provider_type, alg, key_id)] }
      let ctx := managerOperationContext env
      match HsmAuditTrail.record_key_generation env key_id alg provider_type
          result ctx st1.auditTrail with
      | .error e => (.error e, st1)
      | .ok trail' =>
          let st2 : HsmManagerState :=
            { st1 with
                auditTrail := trail'
                metricsMap :=
                  HsmManager.update_metrics provider_type env.elapsedMs
                    st1.metricsMap }
          match result with
          | .ok handle => (.ok handle, st2)
          | .error e => (.error (.keyGenerationFailed e), st2)

/-- The provider fan-out of `HsmManager::get_key` (`src/hsm/mod.rs`,
lines 332-347): try each registry entry in iteration order, returning the
first successful lookup; fail `KeyNotFound` when every lookup fails. -/
def HsmManager.get_key_scan (env : Env) (key_id : String) :
    List (HsmProviderType × ProviderObj) →
    Except HsmError HsmKeyHandle × List (HsmProviderType × ProviderObj)
  | [] => (.error .keyNotFound, [])
  | (pt, pObj) :: rest =>
      match pObj.getKey env key_id with
      | (.ok handle, pObj') => (.ok handle, (pt, pObj') :: rest)
      | (.error _, pObj') =>
          let r := HsmManager.get_key_scan env key_id rest
          (r.1, (pt, pObj') :: r.2)

/-- `HsmManager::get_key` on the full Manager state. -/
def HsmManager.get_key (env : Env) (key_id : String) (st : HsmManagerState) :
    Except HsmError HsmKeyHandle × HsmManagerState :=
  let r := HsmManager.get_key_scan env key_id st.providers
  (r.1, { st with providers := r.2 })

/-- `HsmManager::crypto_operation` (`src/hsm/mod.rs`, lines 351-374):
resolve the owning provider via `get_key`, fail `ProviderUnavailable` if the
handle's provider is not registered, delegate, append an audit record only
when the operation context requires it (a failing audit write propagates via
`?`, skipping the metrics update), update the Manager-side metrics, and
return the provider's result unwrapped. -/
def HsmManager.crypto_operation (env : Env) (op : CryptoOperation)
    (st : HsmManagerState) :
    Except HsmError CryptoResult × HsmManagerState :=
  match HsmManager.get_key env op.key_id st with
  | (.error e, st') => (.error e, st')
  | (.ok handle, st') =>
      match findProvider handle.provider st'.providers with
      | none => (.error (.providerUnavailable handle.provider), st')
      | some pObj =>
          let call := pObj.cryptoOp env op
          let result := call.1
          let st1 : HsmManagerState :=
            { st' with
                providers := updateProvider handle.provider call.2 st'.providers }
          let audited : Except HsmError (List AuditRecord) :=
            if op.context.audit_required then
              HsmAuditTrail.record_crypto_operation env op result st1.auditTrail
            else
              .ok st1.auditTrail
          match audited with
          | .error e => (.error e, st1)
          | .ok trail' =>
              (result,
               { st1 with
                   auditTrail := trail'
                   metricsMap :=
                     HsmManager.update_metrics handle.provider env.elapsedMs
                       st1.metricsMap })

/-! ## Verification harness: iterated acquisition, exact means, concrete inputs -/

/-- `n` successive `get_connection()` calls with no intervening returns:
the list of per-call outcomes and the final pool. -/
def CloudHsmConnectionPool.acquireSeq (env : Env) :
    Nat → CloudHsmConnectionPool →
    List (Except HsmError CloudHsmConnection) × CloudHsmConnectionPool
  | 0, pool => ([], pool)
  | n + 1, pool =>
      let r := pool.get_connection env
      let rest := CloudHsmConnectionPool.acquireSeq env n r.2
      (r.1 :: rest.1, rest.2)

/-- The connection `get_connection` freshly creates under this environment. -/
def freshConn (env : Env) : CloudHsmConnection where
  id := env.connUuid
  session_handle := env.now / 1000
  created_at := env.now
  last_used := env.now
  is_busy := true

/-- Exact arithmetic mean of a list of rationals (`0` for the empty list). -/
def listMeanQ (L : List ℚ) : ℚ := L.sum / (L.length : ℚ)

/-- The AWS provider's internal metrics, read out of a Manager state. -/
def awsInternalMetrics (st : HsmManagerState) : Option HsmMetrics :=
  match findProvider .AwsCloudHsm st.providers with
  | some (.aws a) => some a.metrics
  | _ => none

/-- A concrete environment for witnesses and counterexamples: audit writes
succeed, the hardware operation takes 50 ms, the measured latency is 40 ms. -/
def env0 : Env where
  now := 10000000
  currentUser := "svc-user"
  sessionUuid := "uuid-s"
  connUuid := "uuid-c"
  opUuid := "uuid-o"
  hwDurationMs := 50
  elapsedMs := 40
  auditOk := true

/-- `env0` with a failing audit write. -/
def envAuditFail : Env := { env0 with auditOk := false }

/-- A freshly constructed AWS provider state: 30 s timeout, empty pool of
capacity 5, zeroed internal metrics, no hardware-stored keys. -/
def awsFresh : AwsCloudHsmState where
  timeout_seconds := 30
  pool := CloudHsmConnectionPool.new 5
  metrics := HsmMetrics.new .AwsCloudHsm
  hardwareKeys := []

/-- An AWS provider state configured with `timeout_seconds = 0`. -/
def awsZeroTimeout : AwsCloudHsmState := { awsFresh with timeout_seconds := 0 }

/-- An AWS provider state whose hardware store holds only the key
`"other-key"`. -/
def awsOtherKeyOnly : AwsCloudHsmState :=
  { awsFresh with hardwareKeys := ["other-key"] }

/-- A Manager state whose registry holds exactly one AWS provider and whose
metrics map, audit trail and call trace are empty. -/
def mgrAws (a : AwsCloudHsmState) : HsmManagerState where
  providers := [(.AwsCloudHsm, .aws a)]
  metricsMap := []
  auditTrail := []
  providerCalls := []

/-- The configuration enabling only the AWS CloudHSM backend. -/
def cfgAwsOnly : HsmConfigFlags := ⟨true, false, false⟩

/-- A caller-side operation context, used to exhibit that the audit record
of `generate_pqc_key` cannot carry a caller-supplied context. -/
def callerCtx : OperationContext where
  user_id := "alice"
  application_id := "trading-desk"
  session_id := "sess-7"
  timestamp := 5
  audit_required := true

/-- An opaque provider whose every lookup fails with `KeyNotFound`. -/
def extNoKeys : ExtBehavior where
  genResult := fun _ _ => .error .unsupportedAlgorithm
  getKeyResult := fun _ => .error .keyNotFound
  cryptoResult := fun _ => .error .keyNotFound

/-- The handle the opaque provider `extOwnsAll` reports for a key id. -/
def extHandle (key_id : String) : HsmKeyHandle where
  key_id := key_id
  algorithm := .Kyber1024
  provider := .Pkcs11Generic
  created_at := 0
  expires_at := none
  key_size_bits := 1024
  usage_policy := KeyUsagePolicy.mkDefault
  hardware_backed := true
  fips_compliant := true

/-- The result the opaque provider `extOwnsAll` reports for an operation. -/
def extCryptoResult : CryptoResult where
  data := List.replicate 32 0
  operation_id := "ext-op-1"
  duration_ms := 7
  success := true
  error_code := none
  hsm_metrics :=
    { latency_ms := 7
      throughput_ops_per_sec := 100
      memory_usage_kb := 64
      cpu_usage_percent := 1
      network_latency_ms := none }

/-- An opaque provider that owns every key and performs every operation. -/
def extOwnsAll : ExtBehavior where
  genResult := fun _ key_id => .ok (extHandle key_id)
  getKeyResult := fun key_id => .ok (extHandle key_id)
  cryptoResult := fun _ => .ok extCryptoResult

/-- A Manager state whose registry holds exactly the opaque provider
`extOwnsAll` under the generic PKCS#11 slot. -/
def mgrExt : HsmManagerState where
  providers := [(.Pkcs11Generic, .ext extOwnsAll)]
  metricsMap := []
  auditTrail := []
  providerCalls := []

/-- A concrete crypto-operation request with `audit_required` set. -/
def opAudited : CryptoOperation where
  operation_type := .Sign
  key_id := "k1"
  data := [1, 2, 3]
  algorithm_params := none
  context := callerCtx

/-- A Manager state with one AWS provider and an existing (all-zero)
Manager-side metrics entry for it. -/
def mgrAwsWithEntry : HsmManagerState where
  providers := [(.AwsCloudHsm, .aws awsFresh)]
  metricsMap := [(.AwsCloudHsm, HsmMetrics.managerDefault .AwsCloudHsm)]
  auditTrail := []
  providerCalls := []

/-- The connection `retrieve_hardware_key` creates and returns to the pool
during a `get_key` on a fresh AWS provider under `env0`. -/
def returnedConn0 : CloudHsmConnection where
  id := "uuid-c"
  session_handle := 10000
  created_at := 10000000
  last_used := 10000000
  is_busy := false

/-- The AWS provider state after one `get_key` on `awsFresh` under `env0`:
one pooled idle connection, one connection ever created, metrics and
hardware store untouched. -/
def awsAfterGet : AwsCloudHsmState :=
  { awsFresh with pool := ⟨[returnedConn0], 5, 1⟩ }

/-- The handle `retrieve_hardware_key` fabricates for `"k1"` under `env0`. -/
def mockHandleK1 : HsmKeyHandle where
  key_id := "k1"
  algorithm := .Kyber1024
  provider := .AwsCloudHsm
  created_at := 6400000
  expires_at := some 31459600000
  key_size_bits := 1024
  usage_policy := KeyUsagePolicy.mkDefault
  hardware_backed := true
  fips_compliant := true

/-- A concrete idle connection for witnesses. -/
def c0conn : CloudHsmConnection where
  id := "conn-0"
  session_handle := 1
  created_at := 2
  last_used := 3
  is_busy := false

/-! ## Supporting lemmas -/

lemma vecPop_append {α : Type} (l : List α) (x : α) :
    vecPop (l ++ [x]) = some (x, l) := by
  simp [vecPop]

lemma get_connection_empty_lt (env : Env) (maxC c : Nat) (h : c < maxC) :
    CloudHsmConnectionPool.get_connection env ⟨[], maxC, c⟩ =
      (.ok (freshConn env), ⟨[], maxC, c + 1⟩) := by
  simp [CloudHsmConnectionPool.get_connection, vecPop, h, freshConn]

lemma get_connection_empty_ge (env : Env) (maxC c : Nat) (h : ¬ c < maxC) :
    CloudHsmConnectionPool.get_connection env ⟨[], maxC, c⟩ =
      (.error .resourceExhausted, ⟨[], maxC, c⟩) := by
  simp [CloudHsmConnectionPool.get_connection, vecPop, h]

lemma get_connection_concat (env : Env) (pool : CloudHsmConnectionPool)
    (l : List CloudHsmConnection) (x : CloudHsmConnection)
    (h : pool.connections = l ++ [x]) :
    pool.get_connection env =
      (.ok { x with last_used := env.now, is_busy := true },
       { pool with connections := l }) := by
  simp [CloudHsmConnectionPool.get_connection, h, vecPop_append]

lemma acquireSeq_empty_idle (env : Env) (maxC : Nat) :
    ∀ (k c : Nat), c + k ≤ maxC →
      CloudHsmConnectionPool.acquireSeq env k ⟨[], maxC, c⟩ =
        (List.replicate k (.ok (freshConn env)), ⟨[], maxC, c + k⟩) := by
  intro k
  induction k with
  | zero => intro c _; simp [CloudHsmConnectionPool.acquireSeq]
  | succ n ih =>
      intro c h
      have hc : c < maxC := by omega
      have hrest := ih (c + 1) (by omega)
      simp only [CloudHsmConnectionPool.acquireSeq,
        get_connection_empty_lt env maxC c hc, hrest]
      have hcc : c + 1 + n = c + (n + 1) := by omega
      rw [hcc]
      simp [List.replicate_succ]

lemma listMeanQ_concat (L : List ℚ) (x : ℚ) :
    listMeanQ (L ++ [x]) = (listMeanQ L * (L.length : ℚ) + x) / ((L.length : ℚ) + 1) := by
  unfold listMeanQ
  rcases eq_or_ne L [] with rfl | hL
  · simp
  · have h0 : (L.length : ℚ) ≠ 0 := by
      exact_mod_cast Nat.pos_iff_ne_zero.mp (List.length_pos.mpr hL)
    rw [div_mul_cancel₀ _ h0]
    have h1 : (((L ++ [x]).length : Nat) : ℚ) = (L.length : ℚ) + 1 := by
      push_cast [List.length_append, List.length_singleton]
      ring
    rw [List.sum_append, h1]
    simp

lemma findMetrics_writeMetrics_self (pt : HsmProviderType) (m m0 : HsmMetrics) :
    ∀ mm : List (HsmProviderType × HsmMetrics),
      findMetrics pt mm = some m0 →
      findMetrics pt (writeMetrics pt m mm) = some m := by
  intro mm
  induction mm with
  | nil => intro h; simp [findMetrics] at h
  | cons kv rest ih =>
      intro h
      by_cases hk : kv.1 = pt
      · simp [findMetrics, writeMetrics, hk]
      · simp only [findMetrics, writeMetrics, hk, if_false] at h ⊢
        exact ih h

lemma findProvider_updateProvider_self (pt : HsmProviderType)
    (pObj pObj0 : ProviderObj) :
    ∀ provs : List (HsmProviderType × ProviderObj),
      findProvider pt provs = some pObj0 →
      findProvider pt (updateProvider pt pObj provs) = some pObj := by
  intro provs
  induction provs with
  | nil => intro h; simp [findProvider] at h
  | cons kv rest ih =>
      intro h
      by_cases hk : kv.1 = pt
      · simp [findProvider, updateProvider, hk]
      · simp only [findProvider, updateProvider, hk, if_false] at h ⊢
        exact ih h

lemma generate_hardware_key_metrics (env : Env) (alg : PqcAlgorithm)
    (key_id : String) (st : AwsCloudHsmState) :
    (st.generate_hardware_key env alg key_id).2.metrics = st.metrics := by
  unfold AwsCloudHsmState.generate_hardware_key
  rcases hg : st.pool.get_connection env with ⟨rc, pool'⟩
  cases rc <;> cases alg <;> simp

lemma aws_generate_metrics_delta (env : Env) (alg : PqcAlgorithm)
    (key_id : String) (st : AwsCloudHsmState) :
    ((st.generate_pqc_key env alg key_id).2.metrics.total_operations =
        st.metrics.total_operations)
    ∧ ((st.generate_pqc_key env alg key_id).2.metrics.successful_operations +
        (st.generate_pqc_key env alg key_id).2.metrics.failed_operations =
        st.metrics.successful_operations + st.metrics.failed_operations + 1)
    ∧ (st.timeout_seconds * 1000 < env.hwDurationMs →
        (st.generate_pqc_key env alg key_id).2.metrics.failed_operations =
          st.metrics.failed_operations + 1)
    ∧ (exceptOk (st.generate_pqc_key env alg key_id).1 = true →
        (st.generate_pqc_key env alg key_id).2.metrics.successful_operations =
          st.metrics.successful_operations + 1) := by
  unfold AwsCloudHsmState.generate_pqc_key
  by_cases hto : st.timeout_seconds * 1000 < env.hwDurationMs
  · simp [hto, exceptOk]
    omega
  · have hm0 := generate_hardware_key_metrics env alg key_id st
    rcases hg : st.generate_hardware_key env alg key_id with ⟨r, st'⟩
    rw [hg] at hm0
    have hm : st'.metrics = st.metrics := hm0
    cases r <;> simp [hto, hg, hm, exceptOk] <;> omega

lemma aws_generate_timeout (env : Env) (alg : PqcAlgorithm) (key_id : String)
    (st : AwsCloudHsmState) (hto : st.timeout_seconds * 1000 < env.hwDurationMs) :
    (st.generate_pqc_key env alg key_id).1 = .error .operationTimeout := by
  simp [AwsCloudHsmState.generate_pqc_key, hto]

lemma generate_pqc_key_run (env : Env) (cfg : HsmConfigFlags)
    (alg : PqcAlgorithm) (key_id : String) (preferred : Option HsmProviderType)
    (st : HsmManagerState) (pObj : ProviderObj)
    (hp : findProvider (resolveProviderType cfg alg preferred) st.providers =
      some pObj)
    (ha : env.auditOk = true) :
    HsmManager.generate_pqc_key env cfg alg key_id preferred st =
      ((match (pObj.generate env alg key_id).1 with
        | .ok h => .ok h
        | .error e => .error (.keyGenerationFailed e)),
       { providers := updateProvider (resolveProviderType cfg alg preferred)
           (pObj.generate env alg key_id).2 st.providers
         metricsMap := HsmManager.update_metrics
           (resolveProviderType cfg alg preferred) env.elapsedMs st.metricsMap
         auditTrail := st.auditTrail ++
           [keyGenAuditRecord env key_id alg
             (resolveProviderType cfg alg preferred)
             (pObj.generate env alg key_id).1 (managerOperationContext env)]
         providerCalls := st.providerCalls ++
           [(resolveProviderType cfg alg preferred, alg, key_id)] }) := by
  unfold HsmManager.generate_pqc_key
  rcases hr : pObj.generate env alg key_id with ⟨r, pObj'⟩
  cases r <;> simp [hp, hr, HsmAuditTrail.record_key_generation, ha]

lemma generate_pqc_key_audit_fail (env : Env) (cfg : HsmConfigFlags)
    (alg : PqcAlgorithm) (key_id : String) (preferred : Option HsmProviderType)
    (st : HsmManagerState) (pObj : ProviderObj)
    (hp : findProvider (resolveProviderType cfg alg preferred) st.providers =
      some pObj)
    (ha : env.auditOk = false) :
    HsmManager.generate_pqc_key env cfg alg key_id preferred st =
      (.error .auditFailure,
       { providers := updateProvider (resolveProviderType cfg alg preferred)
           (pObj.generate env alg key_id).2 st.providers
         metricsMap := st.metricsMap
         auditTrail := st.auditTrail
         providerCalls := st.providerCalls ++
           [(resolveProviderType cfg alg preferred, alg, key_id)] }) := by
  unfold HsmManager.generate_pqc_key
  simp [hp, HsmAuditTrail.record_key_generation, ha]

lemma acquireSeq_add (env : Env) (m n : Nat) :
    ∀ p : CloudHsmConnectionPool,
      CloudHsmConnectionPool.acquireSeq env (m + n) p =
        ((CloudHsmConnectionPool.acquireSeq env m p).1 ++
          (CloudHsmConnectionPool.acquireSeq env n
            (CloudHsmConnectionPool.acquireSeq env m p).2).1,
         (CloudHsmConnectionPool.acquireSeq env n
            (CloudHsmConnectionPool.acquireSeq env m p).2).2) := by
  induction m with
  | zero => intro p; simp [CloudHsmConnectionPool.acquireSeq]
  | succ k ih =>
      intro p
      have hswap : k + 1 + n = (k + n) + 1 := by omega
      rw [hswap]
      simp only [CloudHsmConnectionPool.acquireSeq]
      rw [ih]
      simp

/-! ## Claims -/

/-- C3 (amended).  For every supported algorithm and every configuration
with at least one enabled backend, `select_optimal_provider` returns a
backend in the enabled set; it is a total function (never panics) and its
fallback is deterministic.  (The original claim's universal quantification
over all configurations fails on the all-disabled configuration — see the
counterexample.) -/
theorem c3_select_respects_enabled_set (cfg : HsmConfigFlags)
    (alg : PqcAlgorithm)
    (h : cfg.aws_enabled = true ∨ cfg.azure_enabled = true ∨
      cfg.pkcs11_enabled = true) :
    cfg.enables (select_optimal_provider cfg alg) = true := by
  rcases cfg with ⟨a, z, p⟩
  cases a <;> cases z <;> cases p <;> cases alg <;>
    simp_all [select_optimal_provider, HsmConfigFlags.enables]

/-- C3, witness: with only AWS enabled, a Kyber-1024 selection lands in the
enabled set. -/
theorem c3_select_respects_enabled_set_witness :
    ((⟨true, false, false⟩ : HsmConfigFlags).aws_enabled = true ∨
      (⟨true, false, false⟩ : HsmConfigFlags).azure_enabled = true ∨
      (⟨true, false, false⟩ : HsmConfigFlags).pkcs11_enabled = true)
    ∧ HsmConfigFlags.enables ⟨true, false, false⟩
        (select_optimal_provider ⟨true, false, false⟩ .Kyber1024) = true :=
  ⟨Or.inl rfl,
   c3_select_respects_enabled_set ⟨true, false, false⟩ .Kyber1024 (Or.inl rfl)⟩

/-- C3, counterexample to the claim as stated: with no backend enabled,
`select_optimal_provider(Kyber1024)` still returns `AzureKeyVault`, which is
not in the (empty) enabled set. -/
theorem c3_counterexample :
    select_optimal_provider ⟨false, false, false⟩ .Kyber1024 = .AzureKeyVault
    ∧ HsmConfigFlags.enables ⟨false, false, false⟩ .AzureKeyVault = false :=
  ⟨rfl, rfl⟩

/-- C4 (confirmed).  From a fresh pool with `max_connections = N`, `N`
acquisitions with no intervening returns all succeed; the `(N+1)`-th fails
with `ResourceExhausted`; and `get_connection` immediately after
`return_connection(c)` succeeds, handing out the idle connection. -/
theorem c4_pool_capacity_exhaustion (env : Env) (N : Nat) :
    ((CloudHsmConnectionPool.new N).acquireSeq env N).1 =
      List.replicate N (.ok (freshConn env))
    ∧ ((CloudHsmConnectionPool.new N).acquireSeq env (N + 1)).1 =
      List.replicate N (.ok (freshConn env)) ++ [.error .resourceExhausted]
    ∧ ∀ (q : CloudHsmConnectionPool) (c : CloudHsmConnection),
        ((q.return_connection c).get_connection env).1 =
          .ok { c with last_used := env.now, is_busy := true } := by
  have hn : CloudHsmConnectionPool.new N =
      (⟨[], N, 0⟩ : CloudHsmConnectionPool) := rfl
  have h1 := acquireSeq_empty_idle env N N 0 (by omega)
  refine ⟨?_, ?_, ?_⟩
  · rw [hn, h1]
  · rw [hn, acquireSeq_add env N 1, h1]
    simp [CloudHsmConnectionPool.acquireSeq,
      get_connection_empty_ge env N N (by omega)]
  · intro q c
    simp [get_connection_concat env (q.return_connection c) q.connections
      { c with is_busy := false } rfl]

/-- C9 (confirmed).  Provider resolution is the pure function
`resolveProviderType` of the algorithm, the enabled flags and the optional
preference: an explicit preference always wins; Kyber-1024 resolves to the
AWS CloudHSM backend whenever it is enabled; Dilithium-3 resolves to the
generic PKCS#11 backend whenever it is enabled (whatever the other flags,
in particular with Azure Key Vault also enabled). -/
theorem c9_resolution_policy (cfg : HsmConfigFlags) (alg : PqcAlgorithm)
    (p : HsmProviderType) :
    resolveProviderType cfg alg (some p) = p
    ∧ (cfg.aws_enabled = true →
        resolveProviderType cfg .Kyber1024 none = .AwsCloudHsm)
    ∧ (cfg.pkcs11_enabled = true →
        resolveProviderType cfg .Dilithium3 none = .Pkcs11Generic) := by
  refine ⟨rfl, ?_, ?_⟩ <;> intro h <;>
    simp [resolveProviderType, select_optimal_provider, h]

/-- C9, witness: an explicit preference wins on a fully disabled
configuration; Kyber resolves to AWS CloudHSM when it is the only enabled
backend (scenario A); Dilithium resolves to PKCS#11 with the managed vault
also enabled (scenario B). -/
theorem c9_resolution_policy_witness :
    resolveProviderType ⟨false, false, false⟩ .SphincsPlusSha256128s
        (some .Pkcs11Thales) = .Pkcs11Thales
    ∧ resolveProviderType ⟨true, false, false⟩ .Kyber1024 none = .AwsCloudHsm
    ∧ resolveProviderType ⟨false, true, true⟩ .Dilithium3 none = .Pkcs11Generic :=
  ⟨(c9_resolution_policy ⟨false, false, false⟩ .SphincsPlusSha256128s
      .Pkcs11Thales).1,
   (c9_resolution_policy ⟨true, false, false⟩ .Kyber1024 .SoftwareOnly).2.1 rfl,
   (c9_resolution_policy ⟨false, true, true⟩ .Dilithium3 .SoftwareOnly).2.2 rfl⟩

/-- C10 (confirmed).  Idle-connection reuse is last-in-first-out: with a
nonempty idle list `get_connection` hands out its last element (`Vec::pop`),
and a `get_connection` immediately after `return_connection(c)` hands out
`c` itself (`Vec::push` appends at the end). -/
theorem c10_pool_lifo (env : Env) (pool : CloudHsmConnectionPool)
    (l : List CloudHsmConnection) (x : CloudHsmConnection)
    (h : pool.connections = l ++ [x]) :
    ((pool.get_connection env).1 =
        .ok { x with last_used := env.now, is_busy := true })
    ∧ ∀ (q : CloudHsmConnectionPool) (c : CloudHsmConnection),
        ((q.return_connection c).get_connection env).1 =
          .ok { c with last_used := env.now, is_busy := true } := by
  constructor
  · simp [get_connection_concat env pool l x h]
  · intro q c
    simp [get_connection_concat env (q.return_connection c) q.connections
      { c with is_busy := false } rfl]

/-- C10, witness: a pool whose idle list is `[c0conn]` hands out `c0conn`,
and returning `c0conn` to an empty pool makes the next acquisition hand it
straight back. -/
theorem c10_pool_lifo_witness :
    (((⟨[c0conn], 5, 1⟩ : CloudHsmConnectionPool).get_connection env0).1 =
        .ok { c0conn with last_used := env0.now, is_busy := true })
    ∧ ((((⟨[], 5, 0⟩ : CloudHsmConnectionPool).return_connection
          c0conn).get_connection env0).1 =
        .ok { c0conn with last_used := env0.now, is_busy := true }) :=
  ⟨(c10_pool_lifo env0 ⟨[c0conn], 5, 1⟩ [] c0conn rfl).1,
   (c10_pool_lifo env0 ⟨[c0conn], 5, 1⟩ [] c0conn rfl).2 ⟨[], 5, 0⟩ c0conn⟩

/-- C1 (amended).  Every `generate_pqc_key` call whose resolved provider is
registered and whose audit write succeeds appends exactly one `AuditRecord`
to the trail, whatever the provider call's outcome; the record's `key_id`
and `algorithm` equal the call's arguments — but its `OperationContext` is
the Manager-constructed `managerOperationContext env` (process-wide current
user, fixed application id, fresh session id, call start time,
`audit_required = true`): the caller supplies no `OperationContext`, the API
having no context parameter. -/
theorem c1_generate_appends_one_record (env : Env) (cfg : HsmConfigFlags)
    (alg : PqcAlgorithm) (key_id : String)
    (preferred : Option HsmProviderType) (st : HsmManagerState)
    (pObj : ProviderObj)
    (hp : findProvider (resolveProviderType cfg alg preferred) st.providers =
      some pObj)
    (ha : env.auditOk = true) :
    (HsmManager.generate_pqc_key env cfg alg key_id preferred st).2.auditTrail =
      st.auditTrail ++
        [keyGenAuditRecord env key_id alg (resolveProviderType cfg alg preferred)
          (pObj.generate env alg key_id).1 (managerOperationContext env)] := by
  rw [generate_pqc_key_run env cfg alg key_id preferred st pObj hp ha]

/-- C1, witness: a concrete successful generation on a one-provider registry
appends exactly one matching record. -/
theorem c1_generate_appends_one_record_witness :
    (HsmManager.generate_pqc_key env0 cfgAwsOnly .Kyber1024 "k1"
        (some .AwsCloudHsm) (mgrAws awsFresh)).2.auditTrail =
      [keyGenAuditRecord env0 "k1" .Kyber1024 .AwsCloudHsm
        ((ProviderObj.aws awsFresh).generate env0 .Kyber1024 "k1").1
        (managerOperationContext env0)] :=
  c1_generate_appends_one_record env0 cfgAwsOnly .Kyber1024 "k1"
    (some .AwsCloudHsm) (mgrAws awsFresh) (.aws awsFresh) rfl rfl

/-- C1, counterexample to the claim as stated: the single record appended by
a concrete `generate_pqc_key` call carries the Manager-constructed context,
which differs from the explicit caller context `callerCtx` (the record's
application id is the hard-coded `"pqc-kyber-system"`, not the caller's
`"trading-desk"`), so the record does not carry the caller's
`OperationContext`. -/
theorem c1_counterexample :
    ((HsmManager.generate_pqc_key env0 cfgAwsOnly .Kyber1024 "k1"
        (some .AwsCloudHsm) (mgrAws awsFresh)).2.auditTrail.map
          AuditRecord.context = [managerOperationContext env0])
    ∧ managerOperationContext env0 ≠ callerCtx := by
  exact ⟨by decide, by decide⟩

/-- C2 (confirmed).  A `generate_pqc_key` call resolved to the AWS CloudHSM
provider runs the hardware generation under the provider's configured
`timeout_seconds`; when the timer elapses (the hardware operation takes
longer than the configured timeout) the call fails with the timeout error
(wrapped by the Manager as a key-generation failure), and exactly one
provider invocation is recorded — the failure is not retried against the
same or any other provider. -/
theorem c2_timeout_single_attempt (env : Env) (cfg : HsmConfigFlags)
    (alg : PqcAlgorithm) (key_id : String)
    (preferred : Option HsmProviderType) (st : HsmManagerState)
    (awsSt : AwsCloudHsmState)
    (hres : resolveProviderType cfg alg preferred = .AwsCloudHsm)
    (hp : findProvider .AwsCloudHsm st.providers = some (.aws awsSt))
    (ha : env.auditOk = true)
    (hto : awsSt.timeout_seconds * 1000 < env.hwDurationMs) :
    ((HsmManager.generate_pqc_key env cfg alg key_id preferred st).1 =
        .error (.keyGenerationFailed .operationTimeout))
    ∧ ((HsmManager.generate_pqc_key env cfg alg key_id preferred st).2.providerCalls =
        st.providerCalls ++ [(.AwsCloudHsm, alg, key_id)]) := by
  have hp' : findProvider (resolveProviderType cfg alg preferred) st.providers =
      some (.aws awsSt) := by rw [hres]; exact hp
  rw [generate_pqc_key_run env cfg alg key_id preferred st (.aws awsSt) hp' ha]
  have hg : ((ProviderObj.aws awsSt).generate env alg key_id).1 =
      .error .operationTimeout := by
    simp [ProviderObj.generate, aws_generate_timeout env alg key_id awsSt hto]
  constructor
  · simp [hg]
  · simp [hres]

/-- C2, witness: with `timeout_seconds = 0` the hardware operation (50 ms)
always times out; the call fails with the wrapped timeout error and exactly
one provider attempt is traced. -/
theorem c2_timeout_single_attempt_witness :
    ((HsmManager.generate_pqc_key env0 cfgAwsOnly .Kyber1024 "k1"
        (some .AwsCloudHsm) (mgrAws awsZeroTimeout)).1 =
      .error (.keyGenerationFailed .operationTimeout))
    ∧ ((HsmManager.generate_pqc_key env0 cfgAwsOnly .Kyber1024 "k1"
        (some .AwsCloudHsm) (mgrAws awsZeroTimeout)).2.providerCalls =
      [(.AwsCloudHsm, .Kyber1024, "k1")]) :=
  c2_timeout_single_attempt env0 cfgAwsOnly .Kyber1024 "k1"
    (some .AwsCloudHsm) (mgrAws awsZeroTimeout) awsZeroTimeout rfl rfl rfl
    (by decide)

/-- C6 (code bug).  The claim states the Manager still returns the
underlying operation's result when the audit append fails.  The code awaits
`record_key_generation` with `?`: at a concrete input where the provider
call succeeds but the audit write fails, the Manager returns the audit
error instead of the generated handle; the identical call with a succeeding
audit write returns the handle. -/
theorem c6_audit_failure_masks_result :
    ((HsmManager.generate_pqc_key envAuditFail cfgAwsOnly .Kyber1024 "k1"
        (some .AwsCloudHsm) (mgrAws awsFresh)).1 = .error .auditFailure)
    ∧ exceptOk ((ProviderObj.aws awsFresh).generate envAuditFail
        .Kyber1024 "k1").1 = true
    ∧ ((HsmManager.generate_pqc_key env0 cfgAwsOnly .Kyber1024 "k1"
        (some .AwsCloudHsm) (mgrAws awsFresh)).1 =
      .ok (awsKyberHandle env0 "k1")) := by
  exact ⟨by decide, by decide, by decide⟩

/-- C7 (amended).  `HsmManager::get_key` scans the registry in its iteration
order: the empty registry fails with `KeyNotFound`; if every registered
provider's lookup fails, the call fails with `KeyNotFound`; and the first
entry's successful lookup is returned.  (The original claim's
"every provider holds only unrelated keys" case fails on the concrete AWS
provider, whose lookup fabricates a handle for any key id — see the
counterexample.) -/
theorem c7_get_key_scan_spec (env : Env) (key_id : String) :
    (∀ st : HsmManagerState, st.providers = [] →
      (HsmManager.get_key env key_id st).1 = .error .keyNotFound)
    ∧ (∀ provs : List (HsmProviderType × ProviderObj),
        (∀ e ∈ provs, exceptOk (e.2.getKey env key_id).1 = false) →
        (HsmManager.get_key_scan env key_id provs).1 = .error .keyNotFound)
    ∧ (∀ (pt : HsmProviderType) (pObj : ProviderObj)
        (rest : List (HsmProviderType × ProviderObj)) (h : HsmKeyHandle)
        (pObj' : ProviderObj),
        pObj.getKey env key_id = (.ok h, pObj') →
        (HsmManager.get_key_scan env key_id ((pt, pObj) :: rest)).1 = .ok h) := by
  refine ⟨?_, ?_, ?_⟩
  · intro st hst
    simp [HsmManager.get_key, hst, HsmManager.get_key_scan]
  · intro provs
    induction provs with
    | nil => intro _; simp [HsmManager.get_key_scan]
    | cons kv rest ih =>
        intro hall
        have hk := hall kv (List.mem_cons_self kv rest)
        rcases hg : kv.2.getKey env key_id with ⟨r, pObj'⟩
        cases r with
        | ok h => rw [hg] at hk; simp [exceptOk] at hk
        | error e =>
            have hrest := ih (fun e he => hall e (List.mem_cons_of_mem kv he))
            rcases kv with ⟨pt, pObj⟩
            simp [HsmManager.get_key_scan, hg, hrest]
  · intro pt pObj rest h pObj' hg
    simp [HsmManager.get_key_scan, hg]

/-- C7, witness: the empty registry fails `KeyNotFound`; a registry holding
one opaque provider with no keys fails `KeyNotFound`; a first-entry hit is
returned. -/
theorem c7_get_key_scan_spec_witness :
    ((HsmManager.get_key env0 "nonexistent"
        ⟨[], [], [], []⟩).1 = .error .keyNotFound)
    ∧ ((HsmManager.get_key_scan env0 "nonexistent"
        [(.Pkcs11Generic, .ext extNoKeys)]).1 = .error .keyNotFound)
    ∧ ((HsmManager.get_key_scan env0 "k1"
        [(.Pkcs11Generic, .ext extOwnsAll)]).1 = .ok (extHandle "k1")) :=
  ⟨(c7_get_key_scan_spec env0 "nonexistent").1 ⟨[], [], [], []⟩ rfl,
   (c7_get_key_scan_spec env0 "nonexistent").2.1 [(.Pkcs11Generic, .ext extNoKeys)]
     (by
       intro e he
       rw [List.mem_singleton] at he
       rw [he]
       rfl),
   (c7_get_key_scan_spec env0 "k1").2.2 .Pkcs11Generic (.ext extOwnsAll) []
     (extHandle "k1") (.ext extOwnsAll) rfl⟩

/-- C7, counterexample to the claim as stated: a registry whose only
provider is an AWS CloudHSM backend holding only the unrelated key
`"other-key"` does not fail `KeyNotFound` for `"nonexistent"` — the AWS
lookup fabricates and returns a handle for the requested id. -/
theorem c7_counterexample :
    ("nonexistent" ∉ awsOtherKeyOnly.hardwareKeys)
    ∧ exceptOk (HsmManager.get_key env0 "nonexistent"
        (mgrAws awsOtherKeyOnly)).1 = true
    ∧ ((HsmManager.get_key env0 "nonexistent"
        (mgrAws awsOtherKeyOnly)).1.toOption.map HsmKeyHandle.key_id =
      some "nonexistent") := by
  exact ⟨by decide, by decide, by decide⟩

lemma recordLatency_fields (m : HsmMetrics) (L : List ℚ) (lat : Nat)
    (htot : m.total_operations = L.length)
    (havg : m.average_latency_ms = listMeanQ L) :
    (m.recordLatency lat).total_operations = L.length + 1
    ∧ (m.recordLatency lat).peak_latency_ms = max m.peak_latency_ms lat
    ∧ (m.recordLatency lat).average_latency_ms = listMeanQ (L ++ [(lat : ℚ)])
    ∧ (m.recordLatency lat).successful_operations = m.successful_operations
    ∧ (m.recordLatency lat).failed_operations = m.failed_operations := by
  refine ⟨by simp [HsmMetrics.recordLatency, htot],
          by simp [HsmMetrics.recordLatency],
          ?_,
          by simp [HsmMetrics.recordLatency],
          by simp [HsmMetrics.recordLatency]⟩
  simp only [HsmMetrics.recordLatency, listMeanQ_concat, htot, havg,
    Nat.add_sub_cancel]
  push_cast
  ring_nf

lemma aws_crypto_metrics_unchanged (env : Env) (op : CryptoOperation)
    (st : AwsCloudHsmState) :
    (st.perform_crypto_operation env op).2.metrics = st.metrics := by
  unfold AwsCloudHsmState.perform_crypto_operation
  rcases hg : st.pool.get_connection env with ⟨rc, pool'⟩
  cases rc <;> simp

lemma crypto_operation_state (env : Env) (op : CryptoOperation)
    (st : HsmManagerState) (handle : HsmKeyHandle)
    (provs' : List (HsmProviderType × ProviderObj)) (pObj : ProviderObj)
    (hscan : HsmManager.get_key_scan env op.key_id st.providers =
      (.ok handle, provs'))
    (hp : findProvider handle.provider provs' = some pObj)
    (ha : env.auditOk = true) :
    (HsmManager.crypto_operation env op st).2.providers =
        updateProvider handle.provider (pObj.cryptoOp env op).2 provs'
    ∧ (HsmManager.crypto_operation env op st).2.metricsMap =
        HsmManager.update_metrics handle.provider env.elapsedMs st.metricsMap := by
  have hgk : HsmManager.get_key env op.key_id st =
      (.ok handle, { st with providers := provs' }) := by
    simp [HsmManager.get_key, hscan]
  cases hreq : op.context.audit_required <;>
    constructor <;>
      (unfold HsmManager.crypto_operation; rw [hgk];
       simp [hp, hreq, HsmAuditTrail.record_crypto_operation, ha])

/-- C5 (amended).  Metrics are split over two objects, neither of which
satisfies the claim alone, and the two calls behave differently.  A
completed `generate_pqc_key` through the AWS provider: the Manager's
per-provider entry gets `total_operations` incremented by exactly 1,
`peak_latency_ms` raised to the maximum of its previous value and the
elapsed latency, and `average_latency_ms` set to the exact rolling mean of
all latencies it has recorded — but its success/failure counters are never
touched; the AWS provider's internal metrics get exactly one of
`successful_operations`/`failed_operations` incremented according to the
outcome (a timed-out call increments the failed counter by exactly 1) — but
its `total_operations` and latency aggregates are never touched.  A
completed (delegated, audit-write-succeeding) `crypto_operation` through the
AWS provider updates only the Manager's entry, in the same
total/peak/average-only way; the provider's internal metrics are entirely
untouched, so no success/failure counter increments anywhere on that path. -/
theorem c5_metrics_split (env : Env) (cfg : HsmConfigFlags)
    (alg : PqcAlgorithm) (key_id : String)
    (preferred : Option HsmProviderType) (st : HsmManagerState)
    (awsSt : AwsCloudHsmState) (m : HsmMetrics) (L : List ℚ)
    (op : CryptoOperation) (stc : HsmManagerState)
    (awsStc : AwsCloudHsmState) (mc : HsmMetrics) (Lc : List ℚ)
    (handle : HsmKeyHandle) (provs' : List (HsmProviderType × ProviderObj))
    (hres : resolveProviderType cfg alg preferred = .AwsCloudHsm)
    (hp : findProvider .AwsCloudHsm st.providers = some (.aws awsSt))
    (ha : env.auditOk = true)
    (hm : findMetrics .AwsCloudHsm st.metricsMap = some m)
    (htot : m.total_operations = L.length)
    (havg : m.average_latency_ms = listMeanQ L)
    (hscanc : HsmManager.get_key_scan env op.key_id stc.providers =
      (.ok handle, provs'))
    (hhp : handle.provider = .AwsCloudHsm)
    (hpc : findProvider .AwsCloudHsm provs' = some (.aws awsStc))
    (hmc : findMetrics .AwsCloudHsm stc.metricsMap = some mc)
    (htotc : mc.total_operations = Lc.length)
    (havgc : mc.average_latency_ms = listMeanQ Lc) :
    ((findMetrics .AwsCloudHsm
        (HsmManager.generate_pqc_key env cfg alg key_id preferred st).2.metricsMap).map
          (fun m' => (m'.total_operations, m'.peak_latency_ms,
            m'.average_latency_ms, m'.successful_operations,
            m'.failed_operations)) =
      some (L.length + 1, max m.peak_latency_ms env.elapsedMs,
            listMeanQ (L ++ [(env.elapsedMs : ℚ)]),
            m.successful_operations, m.failed_operations))
    ∧ ((awsInternalMetrics
        (HsmManager.generate_pqc_key env cfg alg key_id preferred st).2).map
          (fun a => (a.total_operations,
            a.successful_operations + a.failed_operations)) =
      some (awsSt.metrics.total_operations,
            awsSt.metrics.successful_operations +
              awsSt.metrics.failed_operations + 1))
    ∧ (awsSt.timeout_seconds * 1000 < env.hwDurationMs →
        (awsInternalMetrics
          (HsmManager.generate_pqc_key env cfg alg key_id preferred st).2).map
            (fun a => a.failed_operations) =
          some (awsSt.metrics.failed_operations + 1))
    ∧ ((findMetrics .AwsCloudHsm
        (HsmManager.crypto_operation env op stc).2.metricsMap).map
          (fun m' => (m'.total_operations, m'.peak_latency_ms,
            m'.average_latency_ms, m'.successful_operations,
            m'.failed_operations)) =
      some (Lc.length + 1, max mc.peak_latency_ms env.elapsedMs,
            listMeanQ (Lc ++ [(env.elapsedMs : ℚ)]),
            mc.successful_operations, mc.failed_operations))
    ∧ (awsInternalMetrics (HsmManager.crypto_operation env op stc).2 =
        some awsStc.metrics) := by
  have hp' : findProvider (resolveProviderType cfg alg preferred) st.providers =
      some (.aws awsSt) := by rw [hres]; exact hp
  have hfields := recordLatency_fields m L env.elapsedMs htot havg
  have hdelta := aws_generate_metrics_delta env alg key_id awsSt
  have hupd : findProvider .AwsCloudHsm
      (updateProvider (resolveProviderType cfg alg preferred)
        ((ProviderObj.aws awsSt).generate env alg key_id).2 st.providers) =
      some ((ProviderObj.aws awsSt).generate env alg key_id).2 := by
    rw [hres]
    exact findProvider_updateProvider_self .AwsCloudHsm _ (.aws awsSt)
      st.providers hp
  simp only [ProviderObj.generate] at hupd
  have hpc' : findProvider handle.provider provs' = some (.aws awsStc) := by
    rw [hhp]; exact hpc
  have hcstate := crypto_operation_state env op stc handle provs'
    (.aws awsStc) hscanc hpc' ha
  have hfieldsc := recordLatency_fields mc Lc env.elapsedMs htotc havgc
  have hupdc : findProvider .AwsCloudHsm
      (updateProvider handle.provider
        ((ProviderObj.aws awsStc).cryptoOp env op).2 provs') =
      some ((ProviderObj.aws awsStc).cryptoOp env op).2 := by
    rw [hhp]
    exact findProvider_updateProvider_self .AwsCloudHsm _ (.aws awsStc)
      provs' hpc
  simp only [ProviderObj.cryptoOp] at hupdc
  refine ⟨?_, ?_, ?_, ?_, ?_⟩
  · rw [generate_pqc_key_run env cfg alg key_id preferred st (.aws awsSt)
      hp' ha]
    simp only [hres, HsmManager.update_metrics, hm]
    rw [findMetrics_writeMetrics_self .AwsCloudHsm
      (m.recordLatency env.elapsedMs) m st.metricsMap hm]
    simp [hfields.1, hfields.2.1, hfields.2.2.1, hfields.2.2.2.1,
      hfields.2.2.2.2]
  · rw [generate_pqc_key_run env cfg alg key_id preferred st (.aws awsSt)
      hp' ha]
    simp only [awsInternalMetrics, hupd, ProviderObj.generate]
    simp [hdelta.1, hdelta.2.1]
  · intro hto
    rw [generate_pqc_key_run env cfg alg key_id preferred st (.aws awsSt)
      hp' ha]
    simp only [awsInternalMetrics, hupd, ProviderObj.generate]
    simp [hdelta.2.2.1 hto]
  · rw [hcstate.2, hhp]
    simp only [HsmManager.update_metrics, hmc]
    rw [findMetrics_writeMetrics_self .AwsCloudHsm
      (mc.recordLatency env.elapsedMs) mc stc.metricsMap hmc]
    simp [hfieldsc.1, hfieldsc.2.1, hfieldsc.2.2.1, hfieldsc.2.2.2.1,
      hfieldsc.2.2.2.2]
  · have hprov := hcstate.1
    simp only [ProviderObj.cryptoOp] at hprov
    simp only [awsInternalMetrics, hprov, hupdc]
    simp [aws_crypto_metrics_unchanged env op awsStc]

/-- C5, witness: a concrete successful generation and a concrete delegated
audited operation against Manager states with an all-zero metrics entry:
on the generate path the Manager entry becomes total 1, peak 40, average the
mean of `[40]`, success/fail still 0, and the provider-internal counters
move from 0+0 to summing 1; on the crypto path the Manager entry moves the
same way while the provider-internal metrics are entirely unchanged. -/
theorem c5_metrics_split_witness :
    ((findMetrics .AwsCloudHsm
        (HsmManager.generate_pqc_key env0 cfgAwsOnly .Kyber1024 "k1"
          (some .AwsCloudHsm) mgrAwsWithEntry).2.metricsMap).map
          (fun m' => (m'.total_operations, m'.peak_latency_ms,
            m'.average_latency_ms, m'.successful_operations,
            m'.failed_operations)) =
      some (List.length ([] : List ℚ) + 1,
            max (HsmMetrics.managerDefault .AwsCloudHsm).peak_latency_ms
              env0.elapsedMs,
            listMeanQ (([] : List ℚ) ++ [(env0.elapsedMs : ℚ)]),
            (HsmMetrics.managerDefault .AwsCloudHsm).successful_operations,
            (HsmMetrics.managerDefault .AwsCloudHsm).failed_operations))
    ∧ ((awsInternalMetrics
        (HsmManager.generate_pqc_key env0 cfgAwsOnly .Kyber1024 "k1"
          (some .AwsCloudHsm) mgrAwsWithEntry).2).map
          (fun a => (a.total_operations,
            a.successful_operations + a.failed_operations)) =
      some (awsFresh.metrics.total_operations,
            awsFresh.metrics.successful_operations +
              awsFresh.metrics.failed_operations + 1))
    ∧ ((findMetrics .AwsCloudHsm
        (HsmManager.crypto_operation env0 opAudited
          mgrAwsWithEntry).2.metricsMap).map
          (fun m' => (m'.total_operations, m'.peak_latency_ms,
            m'.average_latency_ms, m'.successful_operations,
            m'.failed_operations)) =
      some (List.length ([] : List ℚ) + 1,
            max (HsmMetrics.managerDefault .AwsCloudHsm).peak_latency_ms
              env0.elapsedMs,
            listMeanQ (([] : List ℚ) ++ [(env0.elapsedMs : ℚ)]),
            (HsmMetrics.managerDefault .AwsCloudHsm).successful_operations,
            (HsmMetrics.managerDefault .AwsCloudHsm).failed_operations))
    ∧ (awsInternalMetrics
        (HsmManager.crypto_operation env0 opAudited mgrAwsWithEntry).2 =
      some awsAfterGet.metrics) :=
  ⟨(c5_metrics_split env0 cfgAwsOnly .Kyber1024 "k1" (some .AwsCloudHsm)
      mgrAwsWithEntry awsFresh (HsmMetrics.managerDefault .AwsCloudHsm) []
      opAudited mgrAwsWithEntry awsAfterGet
      (HsmMetrics.managerDefault .AwsCloudHsm) [] mockHandleK1
      [(.AwsCloudHsm, .aws awsAfterGet)]
      rfl rfl rfl rfl rfl (by simp [HsmMetrics.managerDefault, listMeanQ])
      rfl rfl rfl rfl rfl
      (by simp [HsmMetrics.managerDefault, listMeanQ])).1,
   (c5_metrics_split env0 cfgAwsOnly .Kyber1024 "k1" (some .AwsCloudHsm)
      mgrAwsWithEntry awsFresh (HsmMetrics.managerDefault .AwsCloudHsm) []
      opAudited mgrAwsWithEntry awsAfterGet
      (HsmMetrics.managerDefault .AwsCloudHsm) [] mockHandleK1
      [(.AwsCloudHsm, .aws awsAfterGet)]
      rfl rfl rfl rfl rfl (by simp [HsmMetrics.managerDefault, listMeanQ])
      rfl rfl rfl rfl rfl
      (by simp [HsmMetrics.managerDefault, listMeanQ])).2.1,
   (c5_metrics_split env0 cfgAwsOnly .Kyber1024 "k1" (some .AwsCloudHsm)
      mgrAwsWithEntry awsFresh (HsmMetrics.managerDefault .AwsCloudHsm) []
      opAudited mgrAwsWithEntry awsAfterGet
      (HsmMetrics.managerDefault .AwsCloudHsm) [] mockHandleK1
      [(.AwsCloudHsm, .aws awsAfterGet)]
      rfl rfl rfl rfl rfl (by simp [HsmMetrics.managerDefault, listMeanQ])
      rfl rfl rfl rfl rfl
      (by simp [HsmMetrics.managerDefault, listMeanQ])).2.2.2.1,
   (c5_metrics_split env0 cfgAwsOnly .Kyber1024 "k1" (some .AwsCloudHsm)
      mgrAwsWithEntry awsFresh (HsmMetrics.managerDefault .AwsCloudHsm) []
      opAudited mgrAwsWithEntry awsAfterGet
      (HsmMetrics.managerDefault .AwsCloudHsm) [] mockHandleK1
      [(.AwsCloudHsm, .aws awsAfterGet)]
      rfl rfl rfl rfl rfl (by simp [HsmMetrics.managerDefault, listMeanQ])
      rfl rfl rfl rfl rfl
      (by simp [HsmMetrics.managerDefault, listMeanQ])).2.2.2.2⟩

/-- C5, counterexample to the claim as stated: after one successful
generation from a fresh state, no single metrics object shows both
`total_operations = 1` and `successful_operations = 1`: the Manager's entry
for the resolved provider reads (total 1, success 0, fail 0) and the
provider's internal metrics read (total 0, success 1, fail 0). -/
theorem c5_counterexample :
    (exceptOk (HsmManager.generate_pqc_key env0 cfgAwsOnly .Kyber1024 "k1"
        (some .AwsCloudHsm) (mgrAws awsFresh)).1 = true)
    ∧ ((findMetrics .AwsCloudHsm
        (HsmManager.generate_pqc_key env0 cfgAwsOnly .Kyber1024 "k1"
          (some .AwsCloudHsm) (mgrAws awsFresh)).2.metricsMap).map
          (fun m' => (m'.total_operations, m'.successful_operations,
            m'.failed_operations)) = some (1, 0, 0))
    ∧ ((awsInternalMetrics
        (HsmManager.generate_pqc_key env0 cfgAwsOnly .Kyber1024 "k1"
          (some .AwsCloudHsm) (mgrAws awsFresh)).2).map
          (fun a => (a.total_operations, a.successful_operations,
            a.failed_operations)) = some (0, 1, 0)) :=
  ⟨by decide, by decide, by decide⟩

/-- C8 (amended).  For a delegated `crypto_operation` (the key was resolved
and its provider is registered): with `audit_required` unset no audit record
is appended and the metrics are updated; with `audit_required` set and a
succeeding audit write exactly one record is appended and the metrics are
updated; but with `audit_required` set and a failing audit write the call
returns the audit error, no record is appended and the metrics are NOT
updated — so the original "metrics are updated unconditionally" fails on
that path. -/
theorem c8_crypto_audit_iff_metrics (env : Env) (op : CryptoOperation)
    (st : HsmManagerState) (handle : HsmKeyHandle)
    (provs' : List (HsmProviderType × ProviderObj)) (pObj : ProviderObj)
    (hscan : HsmManager.get_key_scan env op.key_id st.providers =
      (.ok handle, provs'))
    (hp : findProvider handle.provider provs' = some pObj) :
    (op.context.audit_required = false →
      HsmManager.crypto_operation env op st =
        ((pObj.cryptoOp env op).1,
         { providers :=
             updateProvider handle.provider (pObj.cryptoOp env op).2 provs'
           metricsMap :=
             HsmManager.update_metrics handle.provider env.elapsedMs
               st.metricsMap
           auditTrail := st.auditTrail
           providerCalls := st.providerCalls }))
    ∧ (op.context.audit_required = true → env.auditOk = true →
      HsmManager.crypto_operation env op st =
        ((pObj.cryptoOp env op).1,
         { providers :=
             updateProvider handle.provider (pObj.cryptoOp env op).2 provs'
           metricsMap :=
             HsmManager.update_metrics handle.provider env.elapsedMs
               st.metricsMap
           auditTrail := st.auditTrail ++
             [cryptoAuditRecord env op (pObj.cryptoOp env op).1]
           providerCalls := st.providerCalls }))
    ∧ (op.context.audit_required = true → env.auditOk = false →
      HsmManager.crypto_operation env op st =
        (.error .auditFailure,
         { providers :=
             updateProvider handle.provider (pObj.cryptoOp env op).2 provs'
           metricsMap := st.metricsMap
           auditTrail := st.auditTrail
           providerCalls := st.providerCalls })) := by
  have hgk : HsmManager.get_key env op.key_id st =
      (.ok handle, { st with providers := provs' }) := by
    simp [HsmManager.get_key, hscan]
  refine ⟨?_, ?_, ?_⟩
  · intro hreq
    unfold HsmManager.crypto_operation
    rw [hgk]
    simp [hp, hreq]
  · intro hreq hok
    unfold HsmManager.crypto_operation
    rw [hgk]
    simp [hp, hreq, HsmAuditTrail.record_crypto_operation, hok]
  · intro hreq hfail
    unfold HsmManager.crypto_operation
    rw [hgk]
    simp [hp, hreq, HsmAuditTrail.record_crypto_operation, hfail]

/-- C8, witness: a concrete audited operation against the opaque provider
appends exactly one record and updates the metrics map. -/
theorem c8_crypto_audit_iff_metrics_witness :
    HsmManager.crypto_operation env0 opAudited mgrExt =
      (((ProviderObj.ext extOwnsAll).cryptoOp env0 opAudited).1,
       { providers := updateProvider (extHandle "k1").provider
           ((ProviderObj.ext extOwnsAll).cryptoOp env0 opAudited).2
           [(.Pkcs11Generic, .ext extOwnsAll)]
         metricsMap := HsmManager.update_metrics (extHandle "k1").provider
           env0.elapsedMs mgrExt.metricsMap
         auditTrail := mgrExt.auditTrail ++
           [cryptoAuditRecord env0 opAudited
             ((ProviderObj.ext extOwnsAll).cryptoOp env0 opAudited).1]
         providerCalls := mgrExt.providerCalls }) :=
  (c8_crypto_audit_iff_metrics env0 opAudited mgrExt (extHandle "k1")
    [(.Pkcs11Generic, .ext extOwnsAll)] (.ext extOwnsAll) rfl rfl).2.1 rfl rfl

/-- C8, counterexample to the claim as stated: a delegated operation with
`audit_required` set whose audit write fails returns the audit error and
leaves the Manager metrics map untouched (still empty) even though the
provider completed the operation successfully — the metrics update is not
unconditional. -/
theorem c8_counterexample :
    ((HsmManager.crypto_operation envAuditFail opAudited mgrExt).1 =
        .error .auditFailure)
    ∧ ((HsmManager.crypto_operation envAuditFail opAudited mgrExt).2.metricsMap
        = [])
    ∧ opAudited.context.audit_required = true
    ∧ exceptOk ((ProviderObj.ext extOwnsAll).cryptoOp envAuditFail
        opAudited).1 = true :=
  ⟨by decide, by decide, by decide, by decide⟩
